import Mathlib

/-!
Shallow embedding of the stream lifecycle manager in
`src/autonomous-rtsp-manager.js` (class `AutonomousRTSPManager`), the component
the specification's "Stream Lifecycle Manager" claims are about.

JavaScript `Map` objects are embedded as association lists with the same
get/set/delete/size semantics; `setTimeout` handles become entries in the
`reconnectTimers` map whose elapse is a separate transition; `emit` calls are
recorded in an append-only event list.  The stream identifier string
`"${camera.id}_${quality}"` is embedded as the pair `(camera.id, quality)`
(the string format is injective in those two components).
-/

set_option maxRecDepth 8000

namespace Surveillance

/-- Association-list lookup, embedding JavaScript `Map.prototype.get`. -/
def mapGet {K V : Type} [DecidableEq K] : List (K × V) → K → Option V
  | [], _ => none
  | (k', v) :: rest, k => if k' = k then some v else mapGet rest k

/-- Association-list update, embedding JavaScript `Map.prototype.set`
(replaces the entry if the key is present, appends otherwise). -/
def mapSet {K V : Type} [DecidableEq K] : List (K × V) → K → V → List (K × V)
  | [], k, v => [(k, v)]
  | (k', v') :: rest, k, v =>
      if k' = k then (k, v) :: rest else (k', v') :: mapSet rest k v

/-- Association-list removal, embedding JavaScript `Map.prototype.delete`. -/
def mapDelete {K V : Type} [DecidableEq K] (m : List (K × V)) (k : K) :
    List (K × V) :=
  m.filter (fun p => decide (p.1 ≠ k))

/-- Embedding of JavaScript `Map.prototype.has`. -/
def mapHas {K V : Type} [DecidableEq K] (m : List (K × V)) (k : K) : Bool :=
  (mapGet m k).isSome

/-- The camera record handed to `startStream` (fields the manager reads:
`id`, `camera_name`, `rtsp_link`, `rtsp_link_high`). -/
structure Camera where
  id : Nat
  camera_name : String
  rtsp_link : String
  rtsp_link_high : Option String
deriving DecidableEq

/-- The `quality` argument: `'low'` (480p) or `'high'` (1080p). -/
inductive Quality
  | low
  | high
deriving DecidableEq

/-- The stream key `"${camera.id}_${quality}"`, embedded as a pair. -/
abbrev StreamId := Nat × Quality

/-- The `status` field of a stream record (`'connecting'` at creation,
`'streaming'` once the connection-emulation timeout has fired). -/
inductive StreamStatus
  | connecting
  | streaming
deriving DecidableEq

/-- One entry of `this.activeStreams` (`streamData` in `startStream`).
The `proxyServer` handle is embedded by the record itself together with its
`proxyPort`; closing the server corresponds to dropping the record. -/
structure StreamData where
  camera : Camera
  quality : Quality
  streamUrl : String
  proxyPort : Nat
  status : StreamStatus
  includeAudio : Bool
  bytesTransferred : Nat
  clientsConnected : Int
deriving DecidableEq

/-- One entry of `this.audioStreams`. -/
structure AudioInfo where
  url : String
  active : Bool
deriving DecidableEq

/-- A pending `setTimeout` reconnect handle stored in `this.reconnectTimers`:
the closure captures `camera` and `attempts`. -/
structure RetryTimer where
  camera : Camera
  attempts : Nat
deriving DecidableEq

/-- Events emitted through `this.emit`. -/
inductive Event
  | streamConnected (id : StreamId)
  | streamError (id : StreamId) (attempts : Nat)
  | streamFailed (id : StreamId)
  | audioStarted (id : StreamId)
  | audioStopped (id : StreamId)
  | audioError (id : StreamId)
deriving DecidableEq

/-- The `this.config` object of the constructor (fields the embedded
operations read). -/
structure Config where
  maxRetries : Nat
  retryInterval : Nat
  connectionTimeout : Nat
  proxyPort : Nat
  maxConnections : Nat
deriving DecidableEq

/-- The literal configuration set in the constructor. -/
def defaultConfig : Config :=
  { maxRetries := 5
    retryInterval := 30000
    connectionTimeout := 15000
    proxyPort := 8080
    maxConnections := 250 }

/-- The mutable state of one `AutonomousRTSPManager` instance, plus the
append-only log of emitted events. -/
structure ManagerState where
  config : Config
  activeStreams : List (StreamId × StreamData)
  connectionAttempts : List (StreamId × Nat)
  reconnectTimers : List (StreamId × RetryTimer)
  audioStreams : List (StreamId × AudioInfo)
  currentAudioStream : Option StreamId
  nextProxyPort : Nat
  events : List Event
deriving DecidableEq

/-- The state built by the constructor. -/
def initialState : ManagerState :=
  { config := defaultConfig
    activeStreams := []
    connectionAttempts := []
    reconnectTimers := []
    audioStreams := []
    currentAudioStream := none
    nextProxyPort := defaultConfig.proxyPort
    events := [] }

/-- String rendering of a stream key, as in the source template
`"${camera.id}_${quality}"`. -/
def streamIdStr (id : StreamId) : String :=
  toString id.1 ++ "_" ++ (match id.2 with | Quality.low => "low" | Quality.high => "high")

/-- `stopAudioStream(streamId)` (source lines 556-564): deletes the audio
entry and clears `currentAudioStream` when it pointed at this stream. -/
def stopAudioStream (s : ManagerState) (id : StreamId) : ManagerState :=
  let s := { s with audioStreams := mapDelete s.audioStreams id }
  if s.currentAudioStream = some id then { s with currentAudioStream := none } else s

/-- `startAudioStream(streamData)` (source lines 537-551): stops the previous
exclusive owner if it is a different stream, then records this stream as the
owner and returns the demo audio URL. -/
def startAudioStream (s : ManagerState) (sd : StreamData) : ManagerState × String :=
  let id : StreamId := (sd.camera.id, sd.quality)
  let s :=
    match s.currentAudioStream with
    | some cur => if cur ≠ id then stopAudioStream s cur else s
    | none => s
  let audioUrl := "/audio_demo/" ++ streamIdStr id
  let s :=
    { s with
        currentAudioStream := some id
        audioStreams := mapSet s.audioStreams id { url := audioUrl, active := true } }
  (s, audioUrl)

/-- `stopStream(streamId)` (source lines 615-640): a no-op when the key has no
record; otherwise closes the proxy server (embedded as dropping the record),
stops the audio stream if this stream holds one, deletes the record and the
attempt counter, and clears the pending reconnect timer. -/
def stopStream (s : ManagerState) (id : StreamId) : ManagerState :=
  match mapGet s.activeStreams id with
  | none => s
  | some _ =>
    let s := if mapHas s.audioStreams id then stopAudioStream s id else s
    let s :=
      { s with
          activeStreams := mapDelete s.activeStreams id
          connectionAttempts := mapDelete s.connectionAttempts id }
    if mapHas s.reconnectTimers id then
      { s with reconnectTimers := mapDelete s.reconnectTimers id }
    else s

/-- `handleStreamError(streamId, camera, error)` (source lines 645-665):
increments the attempt counter, emits `streamError`, and either — once the
counter reaches `maxRetries` — emits `streamFailed` and calls `stopStream`,
or schedules a reconnect timer. -/
def handleStreamError (s : ManagerState) (id : StreamId) (camera : Camera) :
    ManagerState :=
  let attempts := (mapGet s.connectionAttempts id).getD 0 + 1
  let s := { s with connectionAttempts := mapSet s.connectionAttempts id attempts }
  let s := { s with events := s.events ++ [Event.streamError id attempts] }
  if s.config.maxRetries ≤ attempts then
    let s := { s with events := s.events ++ [Event.streamFailed id] }
    stopStream s id
  else
    { s with
        reconnectTimers :=
          mapSet s.reconnectTimers id { camera := camera, attempts := attempts } }

/-- Kinds of JavaScript exceptions surfaced by the embedding. -/
inductive JsError
  | referenceError
deriving DecidableEq

/-- The `CapacityExceeded` failure of `startStream` (the thrown
`Достигнут лимит подключений` error). -/
inductive StartErr
  | capacityExceeded
deriving DecidableEq

/-- URL selection in `startStream` (source lines 83-85):
`quality === 'high' ? (camera.rtsp_link_high || camera.rtsp_link) : camera.rtsp_link`. -/
def streamUrlFor (camera : Camera) (q : Quality) : String :=
  match q with
  | Quality.high => camera.rtsp_link_high.getD camera.rtsp_link
  | Quality.low => camera.rtsp_link

/-- `startStream(camera, quality, includeAudio)` (source lines 66-130).
Stops a pre-existing record for the key, then checks the connection ceiling:
on `activeStreams.size >= maxConnections` the thrown error is routed through
`handleStreamError` by the `catch` block and re-thrown.  Otherwise the proxy
server is created on port `nextProxyPort++`, the record and a zero attempt
counter are stored, and audio is started when requested.  The 1-second
connection-emulation `setTimeout` is embedded as the separate
`connectEmulation` transition. -/
def startStream (s : ManagerState) (camera : Camera) (quality : Quality)
    (includeAudio : Bool) : ManagerState × Except StartErr StreamId :=
  let id : StreamId := (camera.id, quality)
  let s := if mapHas s.activeStreams id then stopStream s id else s
  if s.config.maxConnections ≤ s.activeStreams.length then
    (handleStreamError s id camera, Except.error StartErr.capacityExceeded)
  else
    let sUrl := streamUrlFor camera quality
    let port := s.nextProxyPort
    let s := { s with nextProxyPort := s.nextProxyPort + 1 }
    let sd : StreamData :=
      { camera := camera
        quality := quality
        streamUrl := sUrl
        proxyPort := port
        status := StreamStatus.connecting
        includeAudio := includeAudio
        bytesTransferred := 0
        clientsConnected := 0 }
    let s :=
      { s with
          activeStreams := mapSet s.activeStreams id sd
          connectionAttempts := mapSet s.connectionAttempts id 0 }
    let s := if includeAudio then (startAudioStream s sd).1 else s
    (s, Except.ok id)

/-- The connection-emulation `setTimeout` body scheduled by `startStream`
(source lines 118-121): sets `status = 'streaming'` on the captured record and
emits `streamConnected` (the emit happens even if the record has meanwhile
been removed from the map, in which case the mutation of the dead object is
invisible to the manager). -/
def connectEmulation (s : ManagerState) (id : StreamId) : ManagerState :=
  match mapGet s.activeStreams id with
  | some sd =>
      { s with
          activeStreams :=
            mapSet s.activeStreams id { sd with status := StreamStatus.streaming }
          events := s.events ++ [Event.streamConnected id] }
  | none => { s with events := s.events ++ [Event.streamConnected id] }

/-- Elapse of the reconnect interval for a scheduled retry timer
(the `setTimeout` body at source lines 658-661).  When the timer was cancelled
(`clearTimeout` in `stopStream`) nothing happens.  When it fires, the callback
body is `this.startStream(camera, streamData?.quality || 'low')`, and
`streamData` is not declared anywhere in `handleStreamError`'s scope, so
evaluating the identifier raises a `ReferenceError` before `startStream` is
invoked: the callback performs no state change. -/
def fireRetryTimer (s : ManagerState) (id : StreamId) :
    Except JsError ManagerState :=
  match mapGet s.reconnectTimers id with
  | none => Except.ok s
  | some _ => Except.error JsError.referenceError

/-- `toggleAudio(cameraId, quality)` (source lines 505-532).  `acquireFails`
models the awaited `startAudioStream` call rejecting (the `catch` branch);
the source's `startAudioStream` itself never rejects, so executions of the
actual system take `acquireFails = false`. -/
def toggleAudio (s : ManagerState) (cameraId : Nat) (quality : Quality)
    (acquireFails : Bool) : Except Unit (ManagerState × Bool) :=
  let id : StreamId := (cameraId, quality)
  match mapGet s.activeStreams id with
  | none => Except.error ()
  | some sd =>
    if s.currentAudioStream = some id then
      let s := stopAudioStream s id
      let s := { s with events := s.events ++ [Event.audioStopped id] }
      Except.ok (s, false)
    else
      if acquireFails then
        Except.ok ({ s with events := s.events ++ [Event.audioError id] }, false)
      else
        let s := (startAudioStream s sd).1
        let s := { s with events := s.events ++ [Event.audioStarted id] }
        Except.ok (s, true)

/-- `stopAllStreams()` (source lines 670-682): stops every key of
`activeStreams`, then resets the proxy-port allocator to the configured
starting port. -/
def stopAllStreams (s : ManagerState) : ManagerState :=
  let keys := s.activeStreams.map (fun p => p.1)
  let s := keys.foldl stopStream s
  { s with nextProxyPort := s.config.proxyPort }

/-- The `server.on('connection')` handler of `createStreamProxy`
(source lines 201-210): increments `clientsConnected` whenever the record
exists, regardless of its status. -/
def clientConnect (s : ManagerState) (id : StreamId) : ManagerState :=
  match mapGet s.activeStreams id with
  | some sd =>
      { s with
          activeStreams :=
            mapSet s.activeStreams id
              { sd with clientsConnected := sd.clientsConnected + 1 } }
  | none => s

/-- The `socket.on('close')` handler registered on accept
(source lines 206-208): decrements the counter of the record captured at
connection time; embedded for the record's lifetime in the map. -/
def clientDisconnect (s : ManagerState) (id : StreamId) : ManagerState :=
  match mapGet s.activeStreams id with
  | some sd =>
      { s with
          activeStreams :=
            mapSet s.activeStreams id
              { sd with clientsConnected := sd.clientsConnected - 1 } }
  | none => s

/-- The outcome of `handleProxyRequest` relevant to stream availability
(source lines 217-252): 404 `Stream not found` when no record exists,
otherwise the request is served. -/
inductive ProxyResponse
  | notFound
  | served
deriving DecidableEq

/-- `handleProxyRequest` availability check (source lines 219-224). -/
def handleProxyRequest (s : ManagerState) (id : StreamId) : ProxyResponse :=
  match mapGet s.activeStreams id with
  | none => ProxyResponse.notFound
  | some _ => ProxyResponse.served

/-- `hasAudio` as reported by `getStreamStatus` (source line 595):
`!!this.audioStreams.has(streamId)`. -/
def hasAudio (s : ManagerState) (id : StreamId) : Bool :=
  mapHas s.audioStreams id

/-- External stimuli of one manager instance: the public operations, the
adapter error callback, and the elapse of the scheduled timers and client
socket events. -/
inductive Op
  | startStream (camera : Camera) (quality : Quality) (includeAudio : Bool)
  | stopStream (id : StreamId)
  | stopAllStreams
  | toggleAudio (cameraId : Nat) (quality : Quality) (acquireFails : Bool)
  | handleStreamError (id : StreamId) (camera : Camera)
  | fireRetryTimer (id : StreamId)
  | connectEmulation (id : StreamId)
  | clientConnect (id : StreamId)
  | clientDisconnect (id : StreamId)
deriving DecidableEq

/-- State change of one stimulus (thrown errors propagate to the caller or
the event loop after the listed side effects; they change no further state). -/
def applyOp (s : ManagerState) (op : Op) : ManagerState :=
  match op with
  | Op.startStream cam q audio => (startStream s cam q audio).1
  | Op.stopStream id => stopStream s id
  | Op.stopAllStreams => stopAllStreams s
  | Op.toggleAudio cid q fails =>
      match toggleAudio s cid q fails with
      | Except.ok (s', _) => s'
      | Except.error _ => s
  | Op.handleStreamError id cam => handleStreamError s id cam
  | Op.fireRetryTimer id =>
      match fireRetryTimer s id with
      | Except.ok s' => s'
      | Except.error _ => s
  | Op.connectEmulation id => connectEmulation s id
  | Op.clientConnect id => clientConnect s id
  | Op.clientDisconnect id => clientDisconnect s id

/-- Execution of a stimulus sequence from the freshly constructed manager. -/
def run (ops : List Op) : ManagerState :=
  ops.foldl applyOp initialState


/-- A camera as used by the concrete scenarios below. -/
def mkCam (i : Nat) : Camera :=
  { id := i
    camera_name := "cam"
    rtsp_link := "rtsp://192.168.1.100:554/stream1"
    rtsp_link_high := none }

/-- The stream record that `startStream` builds for `mkCam i` at low quality
on port `8080 + i`. -/
def mkData (i : Nat) : StreamData :=
  { camera := mkCam i
    quality := Quality.low
    streamUrl := "rtsp://192.168.1.100:554/stream1"
    proxyPort := 8080 + i
    status := StreamStatus.connecting
    includeAudio := false
    bytesTransferred := 0
    clientsConnected := 0 }

/-- The stimulus sequence that starts `n` distinct low-quality streams. -/
def fillOps (n : Nat) : List Op :=
  (List.range n).map (fun i => Op.startStream (mkCam i) Quality.low false)

/-- The manager state after `n` successful `startStream` calls on distinct
cameras (proved equal to `run (fillOps n)` below). -/
def filledState (n : Nat) : ManagerState :=
  { initialState with
      activeStreams :=
        (List.range n).map (fun i => (((i, Quality.low) : StreamId), mkData i))
      connectionAttempts :=
        (List.range n).map (fun i => (((i, Quality.low) : StreamId), 0))
      nextProxyPort := 8080 + n }

/-- At most one record system-wide owns the exclusive audio channel, and it is
the one `currentAudioStream` points at. -/
def AudioInv (s : ManagerState) : Prop :=
  ∀ p ∈ s.audioStreams, s.currentAudioStream = some p.1

/-- Attempt counters of keys that hold an active record stay strictly below
`maxRetries`. -/
def AttemptInv (s : ManagerState) : Prop :=
  0 < s.config.maxRetries ∧
  ∀ id n, mapGet s.connectionAttempts id = some n →
    mapHas s.activeStreams id = true → n < s.config.maxRetries

/-- Signed connect/disconnect balance of a client socket event sequence
(`true` = connection accepted, `false` = socket closed). -/
def clientBalance : List Bool → Int
  | [] => 0
  | true :: r => clientBalance r + 1
  | false :: r => clientBalance r - 1

/-- Folding client socket events into the manager state. -/
def applyClientEvents (s : ManagerState) (id : StreamId) (evs : List Bool) :
    ManagerState :=
  evs.foldl (fun st b => if b then clientConnect st id else clientDisconnect st id) s

/-- The proxy ports handed out by a sequence of `startStream` calls
 (`none` when the call failed and no proxy was created). -/
def assignedPorts (s : ManagerState) : List (Camera × Quality) → List (Option Nat)
  | [] => []
  | (cam, q) :: rest =>
    let r := startStream s cam q false
    (match r.2 with
     | Except.ok id => (mapGet r.1.activeStreams id).map (fun d => d.proxyPort)
     | Except.error _ => none) :: assignedPorts r.1 rest

/-- Six further `startStream` calls for camera 250 issued while the manager is
at its connection ceiling. -/
def capacityCalls : List Op :=
  List.replicate 6 (Op.startStream (mkCam 250) Quality.low false)

/-- Start camera 1, start camera 2, toggle audio onto camera 1. -/
def C3ops : List Op :=
  [Op.startStream (mkCam 1) Quality.low false,
   Op.startStream (mkCam 2) Quality.low false,
   Op.toggleAudio 1 Quality.low false]

/-- Toggle audio onto camera 1 and then onto camera 2. -/
def C6ops : List Op :=
  [Op.startStream (mkCam 1) Quality.low false,
   Op.startStream (mkCam 2) Quality.low false,
   Op.toggleAudio 1 Quality.low false,
   Op.toggleAudio 2 Quality.low false]

/-- A single started stream for camera 0 (so its record is `mkData 0`). -/
def C8ops : List Op :=
  [Op.startStream (mkCam 0) Quality.low false]

/-- A started stream for camera 1 that also owns the audio channel. -/
def audioRunOps : List Op :=
  [Op.startStream (mkCam 1) Quality.low true]

/-- The stream record created by `audioRunOps`. -/
def demoAudioData : StreamData :=
  { camera := mkCam 1
    quality := Quality.low
    streamUrl := "rtsp://192.168.1.100:554/stream1"
    proxyPort := 8080
    status := StreamStatus.connecting
    includeAudio := true
    bytesTransferred := 0
    clientsConnected := 0 }

/-- A stream for camera 1 together with an audio grant and a pending
reconnect timer, as stopStream must release all three. -/
def fullResourceState : ManagerState :=
  { run audioRunOps with
      reconnectTimers := [((1, Quality.low), { camera := mkCam 1, attempts := 1 })] }

/-- A stream for camera 1 whose attempt counter stands one below the retry
ceiling. -/
def nearLimitState : ManagerState :=
  { run C8ops with connectionAttempts := [((0, Quality.low), 4)] }

/-- The record created for camera 2 as the second stream of `C3ops`. -/
def secondStreamData : StreamData :=
  { camera := mkCam 2
    quality := Quality.low
    streamUrl := "rtsp://192.168.1.100:554/stream1"
    proxyPort := 8081
    status := StreamStatus.connecting
    includeAudio := false
    bytesTransferred := 0
    clientsConnected := 0 }


section MapLemmas

variable {K V : Type} [DecidableEq K]

theorem mapGet_set_self (m : List (K × V)) (k : K) (v : V) :
    mapGet (mapSet m k v) k = some v := by
  induction m with
  | nil => simp [mapGet, mapSet]
  | cons p rest ih =>
    obtain ⟨a, b⟩ := p
    by_cases h : a = k
    · subst h
      simp [mapSet, mapGet]
    · simp only [mapSet, if_neg h, mapGet, if_neg h]
      exact ih

theorem mapGet_set_ne (m : List (K × V)) (k k' : K) (v : V) (h : k' ≠ k) :
    mapGet (mapSet m k v) k' = mapGet m k' := by
  have hkk : ¬k = k' := fun hh => h hh.symm
  induction m with
  | nil => simp [mapGet, mapSet, hkk]
  | cons p rest ih =>
    obtain ⟨a, b⟩ := p
    by_cases hp : a = k
    · simp only [mapSet, hp, if_pos rfl, mapGet, if_neg hkk]
    · simp only [mapSet, if_neg hp, mapGet]
      by_cases hq : a = k'
      · simp [hq]
      · simp [hq, ih]

theorem mapGet_del_self (m : List (K × V)) (k : K) :
    mapGet (mapDelete m k) k = none := by
  induction m with
  | nil => rfl
  | cons p rest ih =>
    obtain ⟨a, b⟩ := p
    by_cases h : a = k
    · simpa [mapDelete, List.filter_cons, h] using ih
    · simpa [mapDelete, List.filter_cons, h, mapGet] using ih

theorem mapGet_del_ne (m : List (K × V)) (k k' : K) (h : k' ≠ k) :
    mapGet (mapDelete m k) k' = mapGet m k' := by
  induction m with
  | nil => rfl
  | cons p rest ih =>
    obtain ⟨a, b⟩ := p
    by_cases hp : a = k
    · subst hp
      have hk' : ¬a = k' := fun hh => h hh.symm
      simpa [mapDelete, List.filter_cons, mapGet, hk'] using ih
    · by_cases hq : a = k'
      · subst hq
        simp [mapDelete, List.filter_cons, hp, mapGet]
      · simpa [mapDelete, List.filter_cons, hp, mapGet, hq] using ih

theorem mapDelete_of_get_none (m : List (K × V)) (k : K)
    (h : mapGet m k = none) : mapDelete m k = m := by
  induction m with
  | nil => rfl
  | cons p rest ih =>
    obtain ⟨a, b⟩ := p
    by_cases hp : a = k
    · simp [mapGet, hp] at h
    · simp only [mapGet, if_neg hp] at h
      simp [mapDelete, List.filter_cons, hp] at ih ⊢
      exact ih h

theorem mem_mapDelete (m : List (K × V)) (k : K) (p : K × V)
    (h : p ∈ mapDelete m k) : p ∈ m ∧ p.1 ≠ k := by
  have := List.mem_filter.mp h
  exact ⟨this.1, of_decide_eq_true this.2⟩

theorem mapDelete_length_lt (m : List (K × V)) (k : K)
    (h : mapHas m k = true) : (mapDelete m k).length < m.length := by
  induction m with
  | nil => simp [mapHas, mapGet] at h
  | cons p rest ih =>
    obtain ⟨a, b⟩ := p
    by_cases hp : a = k
    · subst hp
      have hle : (mapDelete rest a).length ≤ rest.length :=
        List.length_filter_le _ _
      have hd : mapDelete ((a, b) :: rest) a = mapDelete rest a := by
        simp [mapDelete, List.filter_cons]
      rw [hd, List.length_cons]
      exact Nat.lt_succ_of_le hle
    · simp only [mapHas, mapGet, if_neg hp] at h
      have hd : mapDelete ((a, b) :: rest) k = (a, b) :: mapDelete rest k := by
        simp [mapDelete, List.filter_cons, hp]
      rw [hd, List.length_cons, List.length_cons]
      exact Nat.succ_lt_succ (ih h)

theorem mem_of_mapGet_some (m : List (K × V)) (k : K) (v : V)
    (h : mapGet m k = some v) : (k, v) ∈ m := by
  induction m with
  | nil => simp [mapGet] at h
  | cons p rest ih =>
    obtain ⟨a, b⟩ := p
    by_cases hp : a = k
    · simp only [mapGet, if_pos hp] at h
      cases h
      simp [hp]
    · simp only [mapGet, if_neg hp] at h
      exact List.mem_cons_of_mem _ (ih h)

theorem mapGet_eq_none_of_forall (m : List (K × V)) (k : K)
    (h : ∀ p ∈ m, p.1 ≠ k) : mapGet m k = none := by
  induction m with
  | nil => rfl
  | cons p rest ih =>
    obtain ⟨a, b⟩ := p
    simp only [mapGet, if_neg (h (a, b) (List.mem_cons_self _ rest))]
    exact ih (fun q hq => h q (List.mem_cons_of_mem _ hq))

theorem mem_mapSet (m : List (K × V)) (k : K) (v : V) (p : K × V)
    (h : p ∈ mapSet m k v) : p = (k, v) ∨ p ∈ m := by
  induction m with
  | nil => simpa [mapSet] using h
  | cons q rest ih =>
    obtain ⟨a, b⟩ := q
    by_cases hq : a = k
    · simp only [mapSet, if_pos hq, List.mem_cons] at h
      rcases h with h | h
      · exact Or.inl h
      · exact Or.inr (List.mem_cons_of_mem _ h)
    · simp only [mapSet, if_neg hq, List.mem_cons] at h
      rcases h with h | h
      · exact Or.inr (by simp [h])
      · rcases ih h with h | h
        · exact Or.inl h
        · exact Or.inr (List.mem_cons_of_mem _ h)

theorem mapDelete_eq_nil_of_forall (m : List (K × V)) (k : K)
    (h : ∀ p ∈ m, p.1 = k) : mapDelete m k = [] := by
  induction m with
  | nil => rfl
  | cons p rest ih =>
    obtain ⟨a, b⟩ := p
    have ha : a = k := h (a, b) (List.mem_cons_self _ rest)
    subst ha
    have hd : mapDelete ((a, b) :: rest) a = mapDelete rest a := by
      simp [mapDelete, List.filter_cons]
    rw [hd]
    exact ih (fun q hq => h q (List.mem_cons_of_mem _ hq))

theorem mapSet_of_get_none (m : List (K × V)) (k : K) (v : V)
    (h : mapGet m k = none) : mapSet m k v = m ++ [(k, v)] := by
  induction m with
  | nil => rfl
  | cons p rest ih =>
    obtain ⟨a, b⟩ := p
    by_cases hp : a = k
    · simp [mapGet, hp] at h
    · simp only [mapGet, if_neg hp] at h
      simp [mapSet, if_neg hp, ih h]

end MapLemmas

section OpLemmas

theorem stopAudioStream_config (s : ManagerState) (id : StreamId) :
    (stopAudioStream s id).config = s.config := by
  simp only [stopAudioStream]; split <;> simp

theorem stopAudioStream_active (s : ManagerState) (id : StreamId) :
    (stopAudioStream s id).activeStreams = s.activeStreams := by
  simp only [stopAudioStream]; split <;> simp

theorem stopAudioStream_counters (s : ManagerState) (id : StreamId) :
    (stopAudioStream s id).connectionAttempts = s.connectionAttempts := by
  simp only [stopAudioStream]; split <;> simp

theorem stopAudioStream_timers (s : ManagerState) (id : StreamId) :
    (stopAudioStream s id).reconnectTimers = s.reconnectTimers := by
  simp only [stopAudioStream]; split <;> simp

theorem stopAudioStream_port (s : ManagerState) (id : StreamId) :
    (stopAudioStream s id).nextProxyPort = s.nextProxyPort := by
  simp only [stopAudioStream]; split <;> simp

theorem stopAudioStream_events (s : ManagerState) (id : StreamId) :
    (stopAudioStream s id).events = s.events := by
  simp only [stopAudioStream]; split <;> simp

theorem stopAudioStream_audio (s : ManagerState) (id : StreamId) :
    (stopAudioStream s id).audioStreams = mapDelete s.audioStreams id := by
  simp only [stopAudioStream]; split <;> simp

theorem startAudioStream_config (s : ManagerState) (sd : StreamData) :
    (startAudioStream s sd).1.config = s.config := by
  simp only [startAudioStream]
  split
  · split <;> simp [stopAudioStream_config]
  · simp

theorem startAudioStream_active (s : ManagerState) (sd : StreamData) :
    (startAudioStream s sd).1.activeStreams = s.activeStreams := by
  simp only [startAudioStream]
  split
  · split <;> simp [stopAudioStream_active]
  · simp

theorem startAudioStream_counters (s : ManagerState) (sd : StreamData) :
    (startAudioStream s sd).1.connectionAttempts = s.connectionAttempts := by
  simp only [startAudioStream]
  split
  · split <;> simp [stopAudioStream_counters]
  · simp

theorem startAudioStream_timers (s : ManagerState) (sd : StreamData) :
    (startAudioStream s sd).1.reconnectTimers = s.reconnectTimers := by
  simp only [startAudioStream]
  split
  · split <;> simp [stopAudioStream_timers]
  · simp

theorem startAudioStream_port (s : ManagerState) (sd : StreamData) :
    (startAudioStream s sd).1.nextProxyPort = s.nextProxyPort := by
  simp only [startAudioStream]
  split
  · split <;> simp [stopAudioStream_port]
  · simp

theorem startAudioStream_events (s : ManagerState) (sd : StreamData) :
    (startAudioStream s sd).1.events = s.events := by
  simp only [startAudioStream]
  split
  · split <;> simp [stopAudioStream_events]
  · simp

theorem startAudioStream_current (s : ManagerState) (sd : StreamData) :
    (startAudioStream s sd).1.currentAudioStream = some (sd.camera.id, sd.quality) := by
  simp [startAudioStream]

theorem stopStream_active (s : ManagerState) (id : StreamId) :
    (stopStream s id).activeStreams = mapDelete s.activeStreams id := by
  cases hA : mapGet s.activeStreams id with
  | none =>
    simp only [stopStream, hA]
    rw [mapDelete_of_get_none _ _ hA]
  | some sd =>
    simp only [stopStream, hA]
    by_cases hAu : mapHas s.audioStreams id = true
    · simp only [hAu, if_true]
      split <;> simp [stopAudioStream_active]
    · simp only [Bool.not_eq_true] at hAu
      simp only [hAu, Bool.false_eq_true, if_false]
      split <;> simp

theorem stopStream_config (s : ManagerState) (id : StreamId) :
    (stopStream s id).config = s.config := by
  cases hA : mapGet s.activeStreams id with
  | none => simp [stopStream, hA]
  | some sd =>
    simp only [stopStream, hA]
    by_cases hAu : mapHas s.audioStreams id = true
    · simp only [hAu, if_true]
      split <;> simp [stopAudioStream_config]
    · simp only [Bool.not_eq_true] at hAu
      simp only [hAu, Bool.false_eq_true, if_false]
      split <;> simp

theorem stopStream_port (s : ManagerState) (id : StreamId) :
    (stopStream s id).nextProxyPort = s.nextProxyPort := by
  cases hA : mapGet s.activeStreams id with
  | none => simp [stopStream, hA]
  | some sd =>
    simp only [stopStream, hA]
    by_cases hAu : mapHas s.audioStreams id = true
    · simp only [hAu, if_true]
      split <;> simp [stopAudioStream_port]
    · simp only [Bool.not_eq_true] at hAu
      simp only [hAu, Bool.false_eq_true, if_false]
      split <;> simp

theorem stopStream_events (s : ManagerState) (id : StreamId) :
    (stopStream s id).events = s.events := by
  cases hA : mapGet s.activeStreams id with
  | none => simp [stopStream, hA]
  | some sd =>
    simp only [stopStream, hA]
    by_cases hAu : mapHas s.audioStreams id = true
    · simp only [hAu, if_true]
      split <;> simp [stopAudioStream_events]
    · simp only [Bool.not_eq_true] at hAu
      simp only [hAu, Bool.false_eq_true, if_false]
      split <;> simp

theorem stopStream_counters (s : ManagerState) (id : StreamId) :
    (stopStream s id).connectionAttempts =
      if mapHas s.activeStreams id then mapDelete s.connectionAttempts id
      else s.connectionAttempts := by
  cases hA : mapGet s.activeStreams id with
  | none => simp [stopStream, hA, mapHas]
  | some sd =>
    have hhas : mapHas s.activeStreams id = true := by simp [mapHas, hA]
    simp only [stopStream, hA, hhas, if_true]
    by_cases hAu : mapHas s.audioStreams id = true
    · simp only [hAu, if_true]
      split <;> simp [stopAudioStream_counters]
    · simp only [Bool.not_eq_true] at hAu
      simp only [hAu, Bool.false_eq_true, if_false]
      split <;> simp

theorem stopStream_timers (s : ManagerState) (id : StreamId) :
    (stopStream s id).reconnectTimers =
      if mapHas s.activeStreams id then mapDelete s.reconnectTimers id
      else s.reconnectTimers := by
  cases hA : mapGet s.activeStreams id with
  | none => simp [stopStream, hA, mapHas]
  | some sd =>
    have hhas : mapHas s.activeStreams id = true := by simp [mapHas, hA]
    simp only [stopStream, hA, hhas, if_true]
    by_cases hAu : mapHas s.audioStreams id = true
    · simp only [hAu, if_true, stopAudioStream_timers]
      split
      · next h2 => simp
      · next h2 =>
        simp only [mapHas, Bool.not_eq_true] at h2
        have hnone : mapGet s.reconnectTimers id = none := by
          cases hx : mapGet s.reconnectTimers id
          · rfl
          · rw [hx] at h2; simp at h2
        simp [mapDelete_of_get_none _ _ hnone]
    · simp only [Bool.not_eq_true] at hAu
      simp only [hAu, Bool.false_eq_true, if_false]
      split
      · next h2 => simp
      · next h2 =>
        simp only [mapHas, Bool.not_eq_true] at h2
        have hnone : mapGet s.reconnectTimers id = none := by
          cases hx : mapGet s.reconnectTimers id
          · rfl
          · rw [hx] at h2; simp at h2
        simp [mapDelete_of_get_none _ _ hnone]

theorem stopStream_get_active_self (s : ManagerState) (id : StreamId) :
    mapGet (stopStream s id).activeStreams id = none := by
  rw [stopStream_active]
  exact mapGet_del_self _ _

end OpLemmas

section AudioInvLemmas

theorem foldl_preserve {A B : Type} {P : B → Prop} (f : B → A → B)
    (h : ∀ b a, P b → P (f b a)) :
    ∀ (l : List A) (b : B), P b → P (l.foldl f b)
  | [], _, hb => hb
  | a :: l, b, hb => foldl_preserve f h l (f b a) (h b a hb)

theorem startAudioStream_audio (s : ManagerState) (sd : StreamData) :
    (startAudioStream s sd).1.audioStreams =
      mapSet
        (match s.currentAudioStream with
         | some cur =>
             if cur ≠ (sd.camera.id, sd.quality) then mapDelete s.audioStreams cur
             else s.audioStreams
         | none => s.audioStreams)
        (sd.camera.id, sd.quality)
        { url := "/audio_demo/" ++ streamIdStr (sd.camera.id, sd.quality),
          active := true } := by
  simp only [startAudioStream]
  cases hcur : s.currentAudioStream with
  | none => simp
  | some cur =>
    by_cases hc : cur = (sd.camera.id, sd.quality)
    · simp [hc]
    · simp [hc, stopAudioStream_audio]

theorem audioInv_stopAudioStream (s : ManagerState) (id : StreamId)
    (h : AudioInv s) : AudioInv (stopAudioStream s id) := by
  intro p hp
  rw [stopAudioStream_audio] at hp
  have hmem := mem_mapDelete _ _ _ hp
  have hcur := h p hmem.1
  have hcond : ¬s.currentAudioStream = some id := by
    rw [hcur]
    intro hh
    exact hmem.2 (by injection hh)
  simp only [stopAudioStream]
  split
  · next hc => exact absurd (by simpa using hc) hcond
  · simpa using hcur

theorem audioInv_startAudioStream (s : ManagerState) (sd : StreamData)
    (h : AudioInv s) : AudioInv (startAudioStream s sd).1 := by
  intro p hp
  rw [startAudioStream_current]
  rw [startAudioStream_audio] at hp
  cases hcur : s.currentAudioStream with
  | none =>
    rw [hcur] at hp
    have hnil : s.audioStreams = [] := by
      cases hx : s.audioStreams with
      | nil => rfl
      | cons q rest =>
        have := h q (by rw [hx]; exact List.mem_cons_self _ _)
        rw [hcur] at this
        cases this
    rw [hnil] at hp
    rcases mem_mapSet _ _ _ _ hp with hp | hp
    · rw [hp]
    · cases hp
  | some cur =>
    rw [hcur] at hp
    by_cases hc : cur = (sd.camera.id, sd.quality)
    · simp only [hc, ne_eq, not_true_eq_false, if_false] at hp
      rcases mem_mapSet _ _ _ _ hp with hp | hp
      · rw [hp]
      · have := h p hp
        rw [hcur, hc] at this
        injection this with this
        rw [this]
    · simp only [ne_eq, hc, not_false_eq_true, if_true] at hp
      have hnil : mapDelete s.audioStreams cur = [] := by
        apply mapDelete_eq_nil_of_forall
        intro q hq
        have := h q hq
        rw [hcur] at this
        injection this with this
        exact this.symm
      rw [hnil] at hp
      rcases mem_mapSet _ _ _ _ hp with hp | hp
      · rw [hp]
      · cases hp

theorem audioInv_stopStream (s : ManagerState) (id : StreamId)
    (h : AudioInv s) : AudioInv (stopStream s id) := by
  cases hA : mapGet s.activeStreams id with
  | none => simpa [stopStream, hA] using h
  | some sd =>
    simp only [stopStream, hA]
    by_cases hAu : mapHas s.audioStreams id = true
    · simp only [hAu, if_true]
      have h1 : AudioInv (stopAudioStream s id) := audioInv_stopAudioStream s id h
      split
      · intro p hp
        exact h1 p hp
      · intro p hp
        exact h1 p hp
    · simp only [Bool.not_eq_true] at hAu
      simp only [hAu, Bool.false_eq_true, if_false]
      split
      · intro p hp
        exact h p hp
      · intro p hp
        exact h p hp

theorem audioInv_handleStreamError (s : ManagerState) (id : StreamId)
    (cam : Camera) (h : AudioInv s) : AudioInv (handleStreamError s id cam) := by
  simp only [handleStreamError]
  split
  · exact audioInv_stopStream _ id (fun p hp => h p hp)
  · intro p hp
    exact h p hp

theorem audioInv_startStream (s : ManagerState) (cam : Camera) (q : Quality)
    (audio : Bool) (h : AudioInv s) : AudioInv (startStream s cam q audio).1 := by
  simp only [startStream]
  generalize hs1 : (if mapHas s.activeStreams (cam.id, q) = true
      then stopStream s (cam.id, q) else s) = s1
  have hstop : AudioInv s1 := by
    rw [← hs1]
    split
    · exact audioInv_stopStream _ _ h
    · exact h
  split
  · exact audioInv_handleStreamError _ _ _ hstop
  · split
    · exact audioInv_startAudioStream _ _ (fun p hp => hstop p hp)
    · exact fun p hp => hstop p hp

end AudioInvLemmas

section ToggleLemmas

theorem toggleAudio_notFound (s : ManagerState) (cid : Nat) (q : Quality)
    (fails : Bool) (hA : mapGet s.activeStreams (cid, q) = none) :
    toggleAudio s cid q fails = Except.error () := by
  simp only [toggleAudio, hA]

theorem toggleAudio_release (s : ManagerState) (cid : Nat) (q : Quality)
    (fails : Bool) (sd : StreamData)
    (hA : mapGet s.activeStreams (cid, q) = some sd)
    (hcur : s.currentAudioStream = some (cid, q)) :
    toggleAudio s cid q fails =
      Except.ok
        ({ stopAudioStream s (cid, q) with
            events :=
              (stopAudioStream s (cid, q)).events ++ [Event.audioStopped (cid, q)] },
          false) := by
  simp only [toggleAudio, hA]
  rw [if_pos hcur]

theorem toggleAudio_acquire_fail (s : ManagerState) (cid : Nat) (q : Quality)
    (sd : StreamData) (hA : mapGet s.activeStreams (cid, q) = some sd)
    (hcur : ¬s.currentAudioStream = some (cid, q)) :
    toggleAudio s cid q true =
      Except.ok
        ({ s with events := s.events ++ [Event.audioError (cid, q)] }, false) := by
  simp only [toggleAudio, hA]
  rw [if_neg hcur]
  simp

theorem toggleAudio_acquire (s : ManagerState) (cid : Nat) (q : Quality)
    (sd : StreamData) (hA : mapGet s.activeStreams (cid, q) = some sd)
    (hcur : ¬s.currentAudioStream = some (cid, q)) :
    toggleAudio s cid q false =
      Except.ok
        ({ (startAudioStream s sd).1 with
            events :=
              (startAudioStream s sd).1.events ++ [Event.audioStarted (cid, q)] },
          true) := by
  simp only [toggleAudio, hA]
  rw [if_neg hcur]
  simp

end ToggleLemmas

section AudioInvOps

theorem audioInv_congr {s t : ManagerState} (ha : t.audioStreams = s.audioStreams)
    (hc : t.currentAudioStream = s.currentAudioStream) (h : AudioInv s) :
    AudioInv t := by
  intro p hp
  rw [hc]
  exact h p (ha ▸ hp)

theorem audioInv_stopAllStreams (s : ManagerState) (h : AudioInv s) :
    AudioInv (stopAllStreams s) := by
  simp only [stopAllStreams]
  exact audioInv_congr rfl rfl
    (foldl_preserve stopStream (fun b a hb => audioInv_stopStream b a hb) _ s h)

theorem audioInv_applyOp (s : ManagerState) (op : Op) (h : AudioInv s) :
    AudioInv (applyOp s op) := by
  cases op with
  | startStream cam q audio => exact audioInv_startStream s cam q audio h
  | stopStream id => exact audioInv_stopStream s id h
  | stopAllStreams => exact audioInv_stopAllStreams s h
  | toggleAudio cid q fails =>
    simp only [applyOp]
    cases hA : mapGet s.activeStreams (cid, q) with
    | none =>
      rw [toggleAudio_notFound s cid q fails hA]
      exact h
    | some sd =>
      by_cases hcur : s.currentAudioStream = some (cid, q)
      · rw [toggleAudio_release s cid q fails sd hA hcur]
        exact audioInv_congr rfl rfl (audioInv_stopAudioStream s (cid, q) h)
      · cases fails
        · rw [toggleAudio_acquire s cid q sd hA hcur]
          exact audioInv_congr rfl rfl (audioInv_startAudioStream s sd h)
        · rw [toggleAudio_acquire_fail s cid q sd hA hcur]
          exact audioInv_congr rfl rfl h
  | handleStreamError id cam => exact audioInv_handleStreamError s id cam h
  | fireRetryTimer id =>
    simp only [applyOp, fireRetryTimer]
    cases hx : mapGet s.reconnectTimers id <;> exact h
  | connectEmulation id =>
    simp only [applyOp, connectEmulation]
    cases hx : mapGet s.activeStreams id with
    | none => exact audioInv_congr rfl rfl h
    | some sd => exact audioInv_congr rfl rfl h
  | clientConnect id =>
    simp only [applyOp, clientConnect]
    cases hx : mapGet s.activeStreams id with
    | none => exact h
    | some sd => exact audioInv_congr rfl rfl h
  | clientDisconnect id =>
    simp only [applyOp, clientDisconnect]
    cases hx : mapGet s.activeStreams id with
    | none => exact h
    | some sd => exact audioInv_congr rfl rfl h

theorem audioInv_initial : AudioInv initialState := by
  intro p hp
  simp [initialState] at hp

theorem audioInv_run (ops : List Op) : AudioInv (run ops) :=
  foldl_preserve applyOp (fun b a hb => audioInv_applyOp b a hb) ops
    initialState audioInv_initial

end AudioInvOps

section AttemptInvLemmas

theorem mapHas_del_ne {K V : Type} [DecidableEq K] (m : List (K × V)) (k k' : K)
    (h : k' ≠ k) : mapHas (mapDelete m k) k' = mapHas m k' := by
  simp [mapHas, mapGet_del_ne _ _ _ h]

theorem mapHas_del_self {K V : Type} [DecidableEq K] (m : List (K × V)) (k : K) :
    mapHas (mapDelete m k) k = false := by
  simp [mapHas, mapGet_del_self]

theorem mapHas_set_ne {K V : Type} [DecidableEq K] (m : List (K × V)) (k k' : K)
    (v : V) (h : k' ≠ k) : mapHas (mapSet m k v) k' = mapHas m k' := by
  simp [mapHas, mapGet_set_ne _ _ _ _ h]

theorem attemptInv_congr {s t : ManagerState} (hc : t.config = s.config)
    (hca : t.connectionAttempts = s.connectionAttempts)
    (ha : t.activeStreams = s.activeStreams) (h : AttemptInv s) : AttemptInv t := by
  refine ⟨by rw [hc]; exact h.1, ?_⟩
  intro id n hg hh
  rw [hc]
  exact h.2 id n (by rw [← hca]; exact hg) (by rw [← ha]; exact hh)

theorem attemptInv_stopStream (s : ManagerState) (id : StreamId)
    (h : AttemptInv s) : AttemptInv (stopStream s id) := by
  refine ⟨by rw [stopStream_config]; exact h.1, ?_⟩
  intro id' n hget hhas
  rw [stopStream_config]
  rw [stopStream_active] at hhas
  rw [stopStream_counters] at hget
  by_cases hid : id' = id
  · subst hid
    rw [mapHas_del_self] at hhas
    cases hhas
  · rw [mapHas_del_ne _ _ _ hid] at hhas
    split at hget
    · rw [mapGet_del_ne _ _ _ hid] at hget
      exact h.2 id' n hget hhas
    · exact h.2 id' n hget hhas

theorem handleStreamError_expand (s : ManagerState) (id : StreamId) (cam : Camera) :
    handleStreamError s id cam =
      (let attempts := (mapGet s.connectionAttempts id).getD 0 + 1
       let s1 : ManagerState :=
        { s with
            connectionAttempts := mapSet s.connectionAttempts id attempts
            events := s.events ++ [Event.streamError id attempts] }
       if s.config.maxRetries ≤ attempts then
         stopStream { s1 with events := s1.events ++ [Event.streamFailed id] } id
       else
         { s1 with
            reconnectTimers :=
              mapSet s.reconnectTimers id { camera := cam, attempts := attempts } }) := by
  simp only [handleStreamError]

theorem attemptInv_handleStreamError (s : ManagerState) (id : StreamId)
    (cam : Camera) (h : AttemptInv s) : AttemptInv (handleStreamError s id cam) := by
  rw [handleStreamError_expand]
  simp only []
  split
  · next hterm =>
    refine ⟨by rw [stopStream_config]; exact h.1, ?_⟩
    intro id' n hget hhas
    rw [stopStream_config]
    rw [stopStream_active] at hhas
    rw [stopStream_counters] at hget
    by_cases hid : id' = id
    · subst hid
      rw [mapHas_del_self] at hhas
      cases hhas
    · rw [mapHas_del_ne _ _ _ hid] at hhas
      have hg : mapGet (mapSet s.connectionAttempts id
          ((mapGet s.connectionAttempts id).getD 0 + 1)) id' = some n := by
        split at hget
        · rw [mapGet_del_ne _ _ _ hid] at hget
          exact hget
        · exact hget
      rw [mapGet_set_ne _ _ _ _ hid] at hg
      exact h.2 id' n hg hhas
  · next hterm =>
    refine ⟨h.1, ?_⟩
    intro id' n hget hhas
    by_cases hid : id' = id
    · subst hid
      rw [mapGet_set_self] at hget
      injection hget with hget
      subst hget
      exact Nat.lt_of_not_le hterm
    · rw [mapGet_set_ne _ _ _ _ hid] at hget
      exact h.2 id' n hget hhas

theorem attemptInv_startStream (s : ManagerState) (cam : Camera) (q : Quality)
    (audio : Bool) (h : AttemptInv s) : AttemptInv (startStream s cam q audio).1 := by
  simp only [startStream]
  generalize hs1 : (if mapHas s.activeStreams (cam.id, q) = true
      then stopStream s (cam.id, q) else s) = s1
  have hstop : AttemptInv s1 := by
    rw [← hs1]
    split
    · exact attemptInv_stopStream _ _ h
    · exact h
  split
  · exact attemptInv_handleStreamError _ _ _ hstop
  · split
    · refine attemptInv_congr (startAudioStream_config _ _)
        (startAudioStream_counters _ _) (startAudioStream_active _ _) ?_
      refine ⟨hstop.1, ?_⟩
      intro id' n hget hhas
      by_cases hid : id' = (cam.id, q)
      · subst hid
        rw [mapGet_set_self] at hget
        injection hget with hget
        subst hget
        exact hstop.1
      · rw [mapGet_set_ne _ _ _ _ hid] at hget
        rw [mapHas_set_ne _ _ _ _ hid] at hhas
        exact hstop.2 id' n hget hhas
    · refine ⟨hstop.1, ?_⟩
      intro id' n hget hhas
      by_cases hid : id' = (cam.id, q)
      · subst hid
        rw [mapGet_set_self] at hget
        injection hget with hget
        subst hget
        exact hstop.1
      · rw [mapGet_set_ne _ _ _ _ hid] at hget
        rw [mapHas_set_ne _ _ _ _ hid] at hhas
        exact hstop.2 id' n hget hhas

theorem attemptInv_stopAllStreams (s : ManagerState) (h : AttemptInv s) :
    AttemptInv (stopAllStreams s) := by
  simp only [stopAllStreams]
  exact attemptInv_congr rfl rfl rfl
    (foldl_preserve stopStream (fun b a hb => attemptInv_stopStream b a hb) _ s h)

theorem attemptInv_applyOp (s : ManagerState) (op : Op) (h : AttemptInv s) :
    AttemptInv (applyOp s op) := by
  cases op with
  | startStream cam q audio => exact attemptInv_startStream s cam q audio h
  | stopStream id => exact attemptInv_stopStream s id h
  | stopAllStreams => exact attemptInv_stopAllStreams s h
  | toggleAudio cid q fails =>
    simp only [applyOp]
    cases hA : mapGet s.activeStreams (cid, q) with
    | none =>
      rw [toggleAudio_notFound s cid q fails hA]
      exact h
    | some sd =>
      by_cases hcur : s.currentAudioStream = some (cid, q)
      · rw [toggleAudio_release s cid q fails sd hA hcur]
        exact attemptInv_congr (stopAudioStream_config _ _)
          (stopAudioStream_counters _ _) (stopAudioStream_active _ _) h
      · cases fails
        · rw [toggleAudio_acquire s cid q sd hA hcur]
          exact attemptInv_congr (startAudioStream_config _ _)
            (startAudioStream_counters _ _) (startAudioStream_active _ _) h
        · rw [toggleAudio_acquire_fail s cid q sd hA hcur]
          exact attemptInv_congr rfl rfl rfl h
  | handleStreamError id cam => exact attemptInv_handleStreamError s id cam h
  | fireRetryTimer id =>
    simp only [applyOp, fireRetryTimer]
    cases hx : mapGet s.reconnectTimers id <;> exact h
  | connectEmulation id =>
    simp only [applyOp, connectEmulation]
    cases hx : mapGet s.activeStreams id with
    | none => exact attemptInv_congr rfl rfl rfl h
    | some sd =>
      refine ⟨h.1, ?_⟩
      intro id' n hget hhas
      by_cases hid : id' = id
      · subst hid
        exact h.2 id' n hget (by simp [mapHas, hx])
      · rw [mapHas_set_ne _ _ _ _ hid] at hhas
        exact h.2 id' n hget hhas
  | clientConnect id =>
    simp only [applyOp, clientConnect]
    cases hx : mapGet s.activeStreams id with
    | none => exact h
    | some sd =>
      refine ⟨h.1, ?_⟩
      intro id' n hget hhas
      by_cases hid : id' = id
      · subst hid
        exact h.2 id' n hget (by simp [mapHas, hx])
      · rw [mapHas_set_ne _ _ _ _ hid] at hhas
        exact h.2 id' n hget hhas
  | clientDisconnect id =>
    simp only [applyOp, clientDisconnect]
    cases hx : mapGet s.activeStreams id with
    | none => exact h
    | some sd =>
      refine ⟨h.1, ?_⟩
      intro id' n hget hhas
      by_cases hid : id' = id
      · subst hid
        exact h.2 id' n hget (by simp [mapHas, hx])
      · rw [mapHas_set_ne _ _ _ _ hid] at hhas
        exact h.2 id' n hget hhas

theorem attemptInv_initial : AttemptInv initialState := by
  refine ⟨by simp [initialState, defaultConfig], ?_⟩
  intro id n hget hhas
  simp [initialState, mapGet] at hget

theorem attemptInv_run (ops : List Op) : AttemptInv (run ops) :=
  foldl_preserve applyOp (fun b a hb => attemptInv_applyOp b a hb) ops
    initialState attemptInv_initial

end AttemptInvLemmas

section PortLemmas

theorem handleStreamError_eq (s : ManagerState) (id : StreamId) (cam : Camera) :
    handleStreamError s id cam =
      if s.config.maxRetries ≤ (mapGet s.connectionAttempts id).getD 0 + 1 then
        stopStream
          { s with
              connectionAttempts := mapSet s.connectionAttempts id
                ((mapGet s.connectionAttempts id).getD 0 + 1)
              events :=
                s.events ++ [Event.streamError id ((mapGet s.connectionAttempts id).getD 0 + 1)]
                  ++ [Event.streamFailed id] } id
      else
        { s with
            connectionAttempts := mapSet s.connectionAttempts id
              ((mapGet s.connectionAttempts id).getD 0 + 1)
            events :=
              s.events ++ [Event.streamError id ((mapGet s.connectionAttempts id).getD 0 + 1)]
            reconnectTimers := mapSet s.reconnectTimers id
              { camera := cam,
                attempts := (mapGet s.connectionAttempts id).getD 0 + 1 } } := rfl

theorem handleStreamError_port (s : ManagerState) (id : StreamId) (cam : Camera) :
    (handleStreamError s id cam).nextProxyPort = s.nextProxyPort := by
  rw [handleStreamError_eq]
  split
  · rw [stopStream_port]
  · rfl

theorem handleStreamError_config (s : ManagerState) (id : StreamId) (cam : Camera) :
    (handleStreamError s id cam).config = s.config := by
  rw [handleStreamError_eq]
  split
  · rw [stopStream_config]
  · rfl

theorem handleStreamError_active_of_absent (s : ManagerState) (id : StreamId)
    (cam : Camera) (h : mapGet s.activeStreams id = none) :
    (handleStreamError s id cam).activeStreams = s.activeStreams := by
  rw [handleStreamError_eq]
  split
  · rw [stopStream_active]
    exact mapDelete_of_get_none _ _ h
  · rfl

theorem startStream_config (s : ManagerState) (cam : Camera) (q : Quality)
    (audio : Bool) : (startStream s cam q audio).1.config = s.config := by
  simp only [startStream]
  generalize hs1 : (if mapHas s.activeStreams (cam.id, q) = true
      then stopStream s (cam.id, q) else s) = s1
  have h1 : s1.config = s.config := by
    rw [← hs1]
    split
    · exact stopStream_config _ _
    · rfl
  split
  · rw [handleStreamError_config]
    exact h1
  · split
    · rw [startAudioStream_config]
      exact h1
    · exact h1

theorem config_applyOp (s : ManagerState) (op : Op) :
    (applyOp s op).config = s.config := by
  cases op with
  | startStream cam q audio => exact startStream_config s cam q audio
  | stopStream id => exact stopStream_config s id
  | stopAllStreams =>
    exact @foldl_preserve StreamId ManagerState (fun t => t.config = s.config)
      stopStream (fun b a hb => (stopStream_config b a).trans hb) _ s rfl
  | toggleAudio cid q fails =>
    simp only [applyOp]
    cases hA : mapGet s.activeStreams (cid, q) with
    | none => rw [toggleAudio_notFound s cid q fails hA]
    | some sd =>
      by_cases hcur : s.currentAudioStream = some (cid, q)
      · rw [toggleAudio_release s cid q fails sd hA hcur]
        exact stopAudioStream_config _ _
      · cases fails
        · rw [toggleAudio_acquire s cid q sd hA hcur]
          exact startAudioStream_config _ _
        · rw [toggleAudio_acquire_fail s cid q sd hA hcur]
  | handleStreamError id cam => exact handleStreamError_config s id cam
  | fireRetryTimer id =>
    simp only [applyOp, fireRetryTimer]
    cases hx : mapGet s.reconnectTimers id <;> rfl
  | connectEmulation id =>
    simp only [applyOp, connectEmulation]
    cases hx : mapGet s.activeStreams id <;> rfl
  | clientConnect id =>
    simp only [applyOp, clientConnect]
    cases hx : mapGet s.activeStreams id <;> rfl
  | clientDisconnect id =>
    simp only [applyOp, clientDisconnect]
    cases hx : mapGet s.activeStreams id <;> rfl

theorem config_run (ops : List Op) : (run ops).config = defaultConfig :=
  @foldl_preserve Op ManagerState (fun t => t.config = defaultConfig) applyOp
    (fun b a hb => (config_applyOp b a).trans hb) ops initialState rfl

theorem foldl_stopStream_active (ks : List StreamId) (s : ManagerState) :
    (ks.foldl stopStream s).activeStreams = ks.foldl mapDelete s.activeStreams := by
  induction ks generalizing s with
  | nil => rfl
  | cons k ks ih =>
    simp only [List.foldl_cons]
    rw [ih, stopStream_active]

theorem foldl_mapDelete_nil {K V : Type} [DecidableEq K] (ks : List K) :
    ∀ m : List (K × V), (∀ p ∈ m, p.1 ∈ ks) → ks.foldl mapDelete m = [] := by
  induction ks with
  | nil =>
    intro m h
    cases hm : m with
    | nil => rfl
    | cons p rest =>
      exact absurd (h p (by rw [hm]; exact List.mem_cons_self _ _))
        (List.not_mem_nil _)
  | cons k ks ih =>
    intro m h
    simp only [List.foldl_cons]
    apply ih
    intro p hp
    have hm := mem_mapDelete _ _ _ hp
    rcases List.mem_cons.mp (h p hm.1) with h1 | h1
    · exact absurd h1 hm.2
    · exact h1

theorem stopAllStreams_active (s : ManagerState) :
    (stopAllStreams s).activeStreams = [] := by
  simp only [stopAllStreams]
  rw [foldl_stopStream_active]
  apply foldl_mapDelete_nil
  intro p hp
  exact List.mem_map_of_mem _ hp

theorem stopAllStreams_port (s : ManagerState) :
    (stopAllStreams s).nextProxyPort = s.config.proxyPort := by
  simp only [stopAllStreams]
  have hcfg : ((s.activeStreams.map (fun p => p.1)).foldl stopStream s).config
      = s.config :=
    @foldl_preserve StreamId ManagerState (fun t => t.config = s.config)
      stopStream (fun b a hb => (stopStream_config b a).trans hb) _ s rfl
  rw [hcfg]

theorem startStream_bisim (s t : ManagerState) (cam : Camera) (q : Quality)
    (audio : Bool) (ha : s.activeStreams = t.activeStreams)
    (hp : s.nextProxyPort = t.nextProxyPort) (hc : s.config = t.config) :
    (startStream s cam q audio).1.activeStreams =
      (startStream t cam q audio).1.activeStreams ∧
    (startStream s cam q audio).1.nextProxyPort =
      (startStream t cam q audio).1.nextProxyPort ∧
    (startStream s cam q audio).1.config = (startStream t cam q audio).1.config ∧
    (startStream s cam q audio).2 = (startStream t cam q audio).2 := by
  simp only [startStream]
  generalize hs1 : (if mapHas s.activeStreams (cam.id, q) = true
      then stopStream s (cam.id, q) else s) = s1
  generalize ht1 : (if mapHas t.activeStreams (cam.id, q) = true
      then stopStream t (cam.id, q) else t) = t1
  have ha1 : s1.activeStreams = t1.activeStreams := by
    rw [← hs1, ← ht1]
    by_cases hcase : mapHas t.activeStreams (cam.id, q) = true
    · rw [if_pos (by rw [ha]; exact hcase), if_pos hcase,
        stopStream_active, stopStream_active, ha]
    · rw [if_neg (by rw [ha]; exact hcase), if_neg hcase]
      exact ha
  have hp1 : s1.nextProxyPort = t1.nextProxyPort := by
    rw [← hs1, ← ht1]
    by_cases hcase : mapHas t.activeStreams (cam.id, q) = true
    · rw [if_pos (by rw [ha]; exact hcase), if_pos hcase,
        stopStream_port, stopStream_port]
      exact hp
    · rw [if_neg (by rw [ha]; exact hcase), if_neg hcase]
      exact hp
  have hc1 : s1.config = t1.config := by
    rw [← hs1, ← ht1]
    by_cases hcase : mapHas t.activeStreams (cam.id, q) = true
    · rw [if_pos (by rw [ha]; exact hcase), if_pos hcase,
        stopStream_config, stopStream_config]
      exact hc
    · rw [if_neg (by rw [ha]; exact hcase), if_neg hcase]
      exact hc
  have habs : mapGet s1.activeStreams (cam.id, q) = none := by
    rw [← hs1]
    split
    · exact stopStream_get_active_self _ _
    · next hx =>
      simp only [mapHas, Bool.not_eq_true] at hx
      cases hz : mapGet s.activeStreams (cam.id, q) with
      | none => rfl
      | some y => rw [hz] at hx; simp at hx
  have habt : mapGet t1.activeStreams (cam.id, q) = none := by
    rw [← ha1]
    exact habs
  rw [hc1, ha1, hp1]
  split
  · refine ⟨?_, ?_, ?_, rfl⟩
    · rw [handleStreamError_active_of_absent _ _ _ habs,
        handleStreamError_active_of_absent _ _ _ habt]
      exact ha1
    · rw [handleStreamError_port, handleStreamError_port]
      exact hp1
    · rw [handleStreamError_config, handleStreamError_config]
      exact hc1
  · split
    · refine ⟨?_, ?_, ?_, rfl⟩
      · rw [startAudioStream_active, startAudioStream_active]
      · rw [startAudioStream_port, startAudioStream_port]
      · rw [startAudioStream_config, startAudioStream_config]
    · exact ⟨rfl, rfl, rfl, rfl⟩

theorem assignedPorts_bisim (reqs : List (Camera × Quality)) :
    ∀ s t : ManagerState, s.activeStreams = t.activeStreams →
      s.nextProxyPort = t.nextProxyPort → s.config = t.config →
      assignedPorts s reqs = assignedPorts t reqs := by
  induction reqs with
  | nil => intro s t _ _ _; rfl
  | cons r rest ih =>
    intro s t ha hp hc
    obtain ⟨cam, q⟩ := r
    obtain ⟨ba, bp, bc, br⟩ := startStream_bisim s t cam q false ha hp hc
    simp only [assignedPorts]
    rw [br, ba, ih _ _ ba bp bc]

end PortLemmas

section FillLemmas

theorem filled_active_absent (n : Nat) :
    mapGet (filledState n).activeStreams (n, Quality.low) = none := by
  apply mapGet_eq_none_of_forall
  intro p hp
  simp only [filledState, List.mem_map, List.mem_range] at hp
  obtain ⟨i, hi, rfl⟩ := hp
  simp only [ne_eq, Prod.mk.injEq, not_and]
  intro hin
  exact absurd hin (Nat.ne_of_lt hi)

theorem filled_counters_absent (n : Nat) :
    mapGet (filledState n).connectionAttempts (n, Quality.low) = none := by
  apply mapGet_eq_none_of_forall
  intro p hp
  simp only [filledState, List.mem_map, List.mem_range] at hp
  obtain ⟨i, hi, rfl⟩ := hp
  simp only [ne_eq, Prod.mk.injEq, not_and]
  intro hin
  exact absurd hin (Nat.ne_of_lt hi)

theorem filled_length (n : Nat) : (filledState n).activeStreams.length = n := by
  simp [filledState]

theorem fill_step (n : Nat) (hn : n < 250) :
    startStream (filledState n) (mkCam n) Quality.low false
      = (filledState (n + 1), Except.ok ((n : Nat), Quality.low)) := by
  have habs := filled_active_absent n
  have hcnt := filled_counters_absent n
  have hid : (mkCam n).id = n := rfl
  simp only [startStream, hid]
  have hhas : mapHas (filledState n).activeStreams (n, Quality.low) = false := by
    simp [mapHas, habs]
  rw [hhas]
  simp only [Bool.false_eq_true, if_false]
  have hcap : ¬((filledState n).config.maxConnections ≤
      (filledState n).activeStreams.length) := by
    rw [filled_length]
    show ¬(250 ≤ n)
    omega
  rw [if_neg hcap]
  refine Prod.ext ?_ rfl
  show ({ filledState n with
      nextProxyPort := (filledState n).nextProxyPort + 1,
      activeStreams := mapSet (filledState n).activeStreams (n, Quality.low)
        { camera := mkCam n, quality := Quality.low,
          streamUrl := streamUrlFor (mkCam n) Quality.low,
          proxyPort := (filledState n).nextProxyPort,
          status := StreamStatus.connecting, includeAudio := false,
          bytesTransferred := 0, clientsConnected := 0 },
      connectionAttempts :=
        mapSet (filledState n).connectionAttempts (n, Quality.low) 0 }
    : ManagerState) = filledState (n + 1)
  rw [mapSet_of_get_none _ _ _ habs, mapSet_of_get_none _ _ _ hcnt]
  simp only [filledState, List.range_succ, List.map_append, List.map_cons,
    List.map_nil]
  rfl

theorem run_fill : ∀ n, n ≤ 250 → run (fillOps n) = filledState n := by
  intro n
  induction n with
  | zero => intro _; rfl
  | succ n ih =>
    intro hn
    have hlt : n < 250 := hn
    have h1 : fillOps (n + 1)
        = fillOps n ++ [Op.startStream (mkCam n) Quality.low false] := by
      simp [fillOps, List.range_succ]
    rw [h1, run, List.foldl_append]
    simp only [List.foldl_cons, List.foldl_nil]
    rw [← run, ih (Nat.le_of_lt hlt)]
    show (startStream (filledState n) (mkCam n) Quality.low false).1
      = filledState (n + 1)
    rw [fill_step n hlt]

end FillLemmas

section ClientLemmas

theorem stopAllStreams_config (s : ManagerState) :
    (stopAllStreams s).config = s.config :=
  @foldl_preserve StreamId ManagerState (fun t => t.config = s.config)
    stopStream (fun b a hb => (stopStream_config b a).trans hb) _ s rfl

theorem applyClientEvents_counter (id : StreamId) :
    ∀ (evs : List Bool) (s : ManagerState) (sd : StreamData),
      mapGet s.activeStreams id = some sd →
      (mapGet (applyClientEvents s id evs).activeStreams id).map
          (fun d => d.clientsConnected)
        = some (sd.clientsConnected + clientBalance evs) := by
  intro evs
  induction evs with
  | nil =>
    intro s sd h
    simp [applyClientEvents, h, clientBalance]
  | cons b evs ih =>
    intro s sd h
    have hstep : applyClientEvents s id (b :: evs)
        = applyClientEvents
            (if b then clientConnect s id else clientDisconnect s id) id evs := by
      simp [applyClientEvents]
    rw [hstep]
    cases b with
    | true =>
      have hg : mapGet (clientConnect s id).activeStreams id
          = some { sd with clientsConnected := sd.clientsConnected + 1 } := by
        simp [clientConnect, h, mapGet_set_self]
      rw [if_pos rfl, ih _ _ hg]
      simp only [clientBalance]
      congr 1
      omega
    | false =>
      have hg : mapGet (clientDisconnect s id).activeStreams id
          = some { sd with clientsConnected := sd.clientsConnected - 1 } := by
        simp [clientDisconnect, h, mapGet_set_self]
      rw [if_neg (by simp), ih _ _ hg]
      simp only [clientBalance]
      congr 1
      omega

theorem stopStream_audio (s : ManagerState) (id : StreamId) :
    (stopStream s id).audioStreams =
      if mapHas s.activeStreams id then mapDelete s.audioStreams id
      else s.audioStreams := by
  cases hA : mapGet s.activeStreams id with
  | none => simp [stopStream, hA, mapHas]
  | some sd =>
    have hhas : mapHas s.activeStreams id = true := by simp [mapHas, hA]
    simp only [stopStream, hA, hhas, if_true]
    by_cases hAu : mapHas s.audioStreams id = true
    · simp only [hAu, if_true, stopAudioStream_audio]
      split <;> simp [stopAudioStream_audio]
    · simp only [Bool.not_eq_true] at hAu
      simp only [hAu, Bool.false_eq_true, if_false]
      have hnone : mapGet s.audioStreams id = none := by
        cases hx : mapGet s.audioStreams id
        · rfl
        · simp [mapHas, hx] at hAu
      split <;> simp [mapDelete_of_get_none _ _ hnone]

end ClientLemmas

section Claims

/-- C3: in every reachable manager state at most one stream holds the
exclusive audio channel (`hasAudio = true`), and when audio is started on a
stream while another holds it, the holder is fully released first — the
intermediate state has no owner, and the acquisition proceeds from exactly
that released state. -/
theorem claim_C3_audio_exclusive :
    (∀ ops : List Op, ∀ a b : StreamId,
      hasAudio (run ops) a = true → hasAudio (run ops) b = true → a = b) ∧
    (∀ (s : ManagerState) (cur : StreamId) (sd : StreamData),
      AudioInv s → s.currentAudioStream = some cur →
      cur ≠ (sd.camera.id, sd.quality) →
      (stopAudioStream s cur).audioStreams = [] ∧
      (stopAudioStream s cur).currentAudioStream = none ∧
      startAudioStream s sd = startAudioStream (stopAudioStream s cur) sd) := by
  constructor
  · intro ops a b ha hb
    have hinv := audioInv_run ops
    simp only [hasAudio, mapHas] at ha hb
    cases hga : mapGet (run ops).audioStreams a with
    | none => rw [hga] at ha; simp at ha
    | some va =>
      cases hgb : mapGet (run ops).audioStreams b with
      | none => rw [hgb] at hb; simp at hb
      | some vb =>
        have h1 := hinv (a, va) (mem_of_mapGet_some _ _ _ hga)
        have h2 := hinv (b, vb) (mem_of_mapGet_some _ _ _ hgb)
        rw [h1] at h2
        exact Option.some.inj h2
  · intro s cur sd hinv hcur hne
    have hnil : (stopAudioStream s cur).audioStreams = [] := by
      rw [stopAudioStream_audio]
      apply mapDelete_eq_nil_of_forall
      intro p hp
      have hx := hinv p hp
      rw [hcur] at hx
      injection hx with hx
      exact hx.symm
    have hnone : (stopAudioStream s cur).currentAudioStream = none := by
      simp [stopAudioStream, hcur]
    exact ⟨hnil, hnone, by simp [startAudioStream, hcur, hnone, hne]⟩

/-- C3 witness: in the concrete run `C3ops`, the owner of the audio channel is
unique, and toggling stream 2 releases stream 1 down to an empty audio map
before acquiring. -/
theorem claim_C3_audio_exclusive_witness :
    ((1 : Nat), Quality.low) = ((1 : Nat), Quality.low) ∧
    (stopAudioStream (run C3ops) ((1 : Nat), Quality.low)).audioStreams = [] :=
  ⟨claim_C3_audio_exclusive.1 C3ops ((1 : Nat), Quality.low)
      ((1 : Nat), Quality.low) (by decide) (by decide),
   (claim_C3_audio_exclusive.2 (run C3ops) ((1 : Nat), Quality.low) (mkData 2)
      (audioInv_run C3ops) (by decide) (by decide)).1⟩

/-- C5: the claim says that when a stream in `Retrying` with
`attempt < maxRetries` reaches the end of its backoff interval, the manager
increments `attempt` and re-invokes the adapter for the same source and the
same quality.  In the code the scheduled callback is
`this.startStream(camera, streamData?.quality || 'low')`, and `streamData` is
not declared anywhere in `handleStreamError`, so the callback raises a
`ReferenceError` instead: evaluated at a concrete high-quality stream whose
error scheduled a retry, the timer elapse produces the error and never
reaches `startStream`. -/
theorem claim_C5_retry_callback_bug :
    (mapGet (handleStreamError initialState (7, Quality.high) (mkCam 7)).reconnectTimers
        (7, Quality.high)).isSome = true ∧
    fireRetryTimer (handleStreamError initialState (7, Quality.high) (mkCam 7))
        (7, Quality.high) = Except.error JsError.referenceError :=
  ⟨rfl, rfl⟩

/-- C7: after `StopAllStreams` on any reachable state, no active record
remains, the proxy-port allocator is back at the configured starting port,
and any subsequent sequence of `startStream` calls is assigned exactly the
ports it would receive on a freshly constructed manager. -/
theorem claim_C7_stopAll_reset (ops : List Op) (reqs : List (Camera × Quality)) :
    (stopAllStreams (run ops)).activeStreams = [] ∧
    (stopAllStreams (run ops)).nextProxyPort = defaultConfig.proxyPort ∧
    assignedPorts (stopAllStreams (run ops)) reqs = assignedPorts initialState reqs := by
  refine ⟨stopAllStreams_active _, ?_, ?_⟩
  · rw [stopAllStreams_port, config_run]
  · apply assignedPorts_bisim
    · rw [stopAllStreams_active]
      rfl
    · rw [stopAllStreams_port, config_run]
      rfl
    · rw [stopAllStreams_config, config_run]
      rfl

/-- C9: when the key already has an active record, `startStream` never fails
with the capacity error even at the ceiling: the old record is removed before
the ceiling check, so the call succeeds and a fresh record is installed. -/
theorem claim_C9_replace_before_ceiling (s : ManagerState) (cam : Camera)
    (q : Quality) (audio : Bool)
    (hhas : mapHas s.activeStreams (cam.id, q) = true)
    (hcap : s.activeStreams.length ≤ s.config.maxConnections) :
    (startStream s cam q audio).2 = Except.ok (cam.id, q) ∧
    mapHas (startStream s cam q audio).1.activeStreams (cam.id, q) = true := by
  have hlen : (stopStream s (cam.id, q)).activeStreams.length
      < s.activeStreams.length := by
    rw [stopStream_active]
    exact mapDelete_length_lt _ _ hhas
  have hcond : ¬((stopStream s (cam.id, q)).config.maxConnections ≤
      (stopStream s (cam.id, q)).activeStreams.length) := by
    rw [stopStream_config]
    omega
  simp only [startStream]
  rw [if_pos hhas, if_neg hcond]
  constructor
  · rfl
  · split
    · rw [startAudioStream_active]
      simp [mapHas, mapGet_set_self]
    · simp [mapHas, mapGet_set_self]

/-- C9 witness: with one active stream for camera 1, restarting the same
(camera, quality) key succeeds. -/
theorem claim_C9_replace_before_ceiling_witness :
    (startStream (run C8ops) (mkCam 0) Quality.low false).2
      = Except.ok ((0 : Nat), Quality.low) ∧
    mapHas (startStream (run C8ops) (mkCam 0) Quality.low false).1.activeStreams
      ((0 : Nat), Quality.low) = true := by
  have h := claim_C9_replace_before_ceiling (run C8ops) (mkCam 0) Quality.low
    false (by decide) (by decide)
  exact h

/-- C10: `toggleAudio` returns `false` both when it releases audio held by the
named stream and when acquiring audio fails; in the failure case the
rejection is caught, the only trace is an `audioError` event, and nothing is
thrown to the caller (the result is an ordinary `Except.ok`). -/
theorem claim_C10_toggle_false_cases (s : ManagerState) (cid : Nat) (q : Quality)
    (sd : StreamData) (hA : mapGet s.activeStreams (cid, q) = some sd) :
    (s.currentAudioStream = some (cid, q) →
      ∀ fails : Bool, toggleAudio s cid q fails =
        Except.ok
          ({ stopAudioStream s (cid, q) with
              events := (stopAudioStream s (cid, q)).events
                ++ [Event.audioStopped (cid, q)] },
            false)) ∧
    (¬s.currentAudioStream = some (cid, q) →
      toggleAudio s cid q true =
        Except.ok ({ s with events := s.events ++ [Event.audioError (cid, q)] },
          false)) :=
  ⟨fun hcur fails => toggleAudio_release s cid q fails sd hA hcur,
   fun hcur => toggleAudio_acquire_fail s cid q sd hA hcur⟩

/-- C10 witness: on the concrete single-stream run, a failing acquisition
returns `false` inside `Except.ok` and appends exactly one `audioError`
event. -/
theorem claim_C10_toggle_false_cases_witness :
    toggleAudio (run C8ops) 0 Quality.low true =
      Except.ok
        ({ run C8ops with
            events := (run C8ops).events ++ [Event.audioError (0, Quality.low)] },
          false) :=
  (claim_C10_toggle_false_cases (run C8ops) 0 Quality.low (mkData 0)
    (by decide)).2 (by decide)

end Claims

section ClaimsB

theorem stopStream_full_release (t : ManagerState) (id : StreamId)
    (h : mapHas t.activeStreams id = true) :
    mapGet (stopStream t id).activeStreams id = none ∧
    mapGet (stopStream t id).connectionAttempts id = none ∧
    mapGet (stopStream t id).reconnectTimers id = none ∧
    hasAudio (stopStream t id) id = false ∧
    (stopStream t id).events = t.events ∧
    fireRetryTimer (stopStream t id) id = Except.ok (stopStream t id) := by
  have htimers : mapGet (stopStream t id).reconnectTimers id = none := by
    rw [stopStream_timers, if_pos h]
    exact mapGet_del_self _ _
  refine ⟨stopStream_get_active_self t id, ?_, htimers, ?_, stopStream_events t id, ?_⟩
  · rw [stopStream_counters, if_pos h]
    exact mapGet_del_self _ _
  · show mapHas (stopStream t id).audioStreams id = false
    rw [stopStream_audio, if_pos h]
    exact mapHas_del_self _ _
  · simp [fireRetryTimer, htimers]

/-- C4: `stopStream` is a no-op on an unknown stream id, is idempotent, and
for an existing stream removes the record (closing its proxy), the attempt
counter, the pending reconnect timer, and the audio grant, so that a later
elapse of the retry interval is a pure no-op (no transition, no adapter
call). -/
theorem claim_C4_stop_releases_everything (s : ManagerState) (id : StreamId) :
    (mapGet s.activeStreams id = none → stopStream s id = s) ∧
    stopStream (stopStream s id) id = stopStream s id ∧
    (∀ sd : StreamData, mapGet s.activeStreams id = some sd →
      mapGet (stopStream s id).activeStreams id = none ∧
      mapGet (stopStream s id).connectionAttempts id = none ∧
      mapGet (stopStream s id).reconnectTimers id = none ∧
      hasAudio (stopStream s id) id = false ∧
      fireRetryTimer (stopStream s id) id = Except.ok (stopStream s id)) := by
  have hnoop : ∀ t : ManagerState, mapGet t.activeStreams id = none →
      stopStream t id = t := by
    intro t ht
    simp [stopStream, ht]
  refine ⟨hnoop s, hnoop _ (stopStream_get_active_self s id), ?_⟩
  intro sd hsd
  have hhas : mapHas s.activeStreams id = true := by simp [mapHas, hsd]
  have hfull := stopStream_full_release s id hhas
  exact ⟨hfull.1, hfull.2.1, hfull.2.2.1, hfull.2.2.2.1, hfull.2.2.2.2.2⟩

/-- C4 witness: stopping the concrete stream that holds a record, the audio
grant and a pending reconnect timer releases all three, and firing the
(cancelled) retry timer afterwards changes nothing. -/
theorem claim_C4_stop_releases_everything_witness :
    mapGet (stopStream fullResourceState (1, Quality.low)).activeStreams
      (1, Quality.low) = none ∧
    mapGet (stopStream fullResourceState (1, Quality.low)).reconnectTimers
      (1, Quality.low) = none ∧
    hasAudio (stopStream fullResourceState (1, Quality.low)) (1, Quality.low) = false ∧
    fireRetryTimer (stopStream fullResourceState (1, Quality.low)) (1, Quality.low)
      = Except.ok (stopStream fullResourceState (1, Quality.low)) := by
  have h := (claim_C4_stop_releases_everything fullResourceState
    (1, Quality.low)).2.2 demoAudioData (by decide)
  exact ⟨h.1, h.2.2.1, h.2.2.2.1, h.2.2.2.2⟩

/-- C1 counterexample: starting a 251st stream on the manager that reached
its ceiling through 250 real `startStream` calls throws the capacity error
and creates no record, but — contrary to the claim that no state is
created — it stores attempt counter 1 and schedules a retry timer for the
key. -/
theorem claim_C1_counterexample :
    run (fillOps 250) = filledState 250 ∧
    (startStream (filledState 250) (mkCam 250) Quality.low false).2
      = Except.error StartErr.capacityExceeded ∧
    mapGet (startStream (filledState 250) (mkCam 250) Quality.low false).1.activeStreams
      (250, Quality.low) = none ∧
    mapGet (startStream (filledState 250) (mkCam 250) Quality.low
      false).1.connectionAttempts (250, Quality.low) = some 1 ∧
    (mapGet (startStream (filledState 250) (mkCam 250) Quality.low
      false).1.reconnectTimers (250, Quality.low)).isSome = true :=
  ⟨run_fill 250 (by omega), rfl, by decide, by decide, by decide⟩

/-- C1 amended: a `startStream` call at the ceiling for a key with no record
(and no prior attempt counter) fails with the capacity error and creates no
stream record, but the catch block runs `handleStreamError`, which records
attempt counter 1 and schedules a retry timer for the key. -/
theorem claim_C1_capacity_side_effects (s : ManagerState) (cam : Camera)
    (q : Quality) (audio : Bool)
    (hnone : mapGet s.activeStreams (cam.id, q) = none)
    (hcap : s.config.maxConnections ≤ s.activeStreams.length)
    (hcnt : mapGet s.connectionAttempts (cam.id, q) = none)
    (hretry : 1 < s.config.maxRetries) :
    (startStream s cam q audio).2 = Except.error StartErr.capacityExceeded ∧
    mapGet (startStream s cam q audio).1.activeStreams (cam.id, q) = none ∧
    mapGet (startStream s cam q audio).1.connectionAttempts (cam.id, q) = some 1 ∧
    (mapGet (startStream s cam q audio).1.reconnectTimers (cam.id, q)).isSome
      = true := by
  have hcond : ¬(mapHas s.activeStreams (cam.id, q) = true) := by
    simp [mapHas, hnone]
  simp only [startStream]
  rw [if_neg hcond, if_pos hcap]
  refine ⟨rfl, ?_, ?_, ?_⟩
  · rw [handleStreamError_active_of_absent _ _ _ hnone]
    exact hnone
  · rw [handleStreamError_eq, hcnt]
    simp only [Option.getD_none]
    rw [if_neg (by omega)]
    simp [mapGet_set_self]
  · rw [handleStreamError_eq, hcnt]
    simp only [Option.getD_none]
    rw [if_neg (by omega)]
    simp [mapGet_set_self]

/-- C1 witness: the amended statement evaluated at the concrete 250-stream
state and camera 250. -/
theorem claim_C1_capacity_side_effects_witness :
    (startStream (filledState 250) (mkCam 250) Quality.low true).2
      = Except.error StartErr.capacityExceeded ∧
    mapGet (startStream (filledState 250) (mkCam 250) Quality.low
      true).1.activeStreams (250, Quality.low) = none ∧
    mapGet (startStream (filledState 250) (mkCam 250) Quality.low
      true).1.connectionAttempts (250, Quality.low) = some 1 ∧
    (mapGet (startStream (filledState 250) (mkCam 250) Quality.low
      true).1.reconnectTimers (250, Quality.low)).isSome = true := by
  have h := claim_C1_capacity_side_effects (filledState 250) (mkCam 250)
    Quality.low true (by decide) (by decide) (by decide) (by decide)
  exact h

end ClaimsB

section ClaimsC

/-- C2 counterexample: six consecutive `startStream` calls for camera 250
made while 250 streams are active each fail with the capacity error and each
run `handleStreamError`; because no record exists for the key, the terminal
`stopStream` is a no-op and the attempt counter climbs to 6, exceeding
`maxRetries = 5` — contradicting the claim that `attempt` never exceeds
`maxRetries`. -/
theorem claim_C2_counterexample :
    mapGet (run (fillOps 250 ++ capacityCalls)).connectionAttempts
      (250, Quality.low) = some 6 ∧
    (run (fillOps 250 ++ capacityCalls)).config.maxRetries = 5 := by
  constructor
  · rw [run, List.foldl_append, ← run, run_fill 250 (by omega)]
    decide
  · rw [config_run]
    rfl

/-- C2 amended: for every key that holds an active record, the attempt
counter never exceeds `maxRetries` in any reachable state; and when
`handleStreamError` raises such a key's counter to `maxRetries`, it emits
`streamError` followed by the terminal `streamFailed`, tears down the record,
the counter and the timer, and a subsequent elapse of the retry interval is a
no-op.  (For a key with no record — the capacity-failure bookkeeping — the
teardown is a no-op and the counter can grow past `maxRetries`, as the
counterexample shows.) -/
theorem claim_C2_bounded_retries :
    (∀ (ops : List Op) (id : StreamId) (n : Nat),
      mapGet (run ops).connectionAttempts id = some n →
      mapHas (run ops).activeStreams id = true →
      n ≤ defaultConfig.maxRetries) ∧
    (∀ (s : ManagerState) (id : StreamId) (cam : Camera),
      0 < s.config.maxRetries →
      mapHas s.activeStreams id = true →
      mapGet s.connectionAttempts id = some (s.config.maxRetries - 1) →
      (handleStreamError s id cam).events
          = s.events ++ [Event.streamError id s.config.maxRetries]
            ++ [Event.streamFailed id] ∧
      mapGet (handleStreamError s id cam).activeStreams id = none ∧
      mapGet (handleStreamError s id cam).connectionAttempts id = none ∧
      mapGet (handleStreamError s id cam).reconnectTimers id = none ∧
      fireRetryTimer (handleStreamError s id cam) id
          = Except.ok (handleStreamError s id cam)) := by
  constructor
  · intro ops id n hget hhas
    have hinv := attemptInv_run ops
    have hlt := hinv.2 id n hget hhas
    rw [config_run] at hlt
    omega
  · intro s id cam hpos hhas hcnt
    have hsucc : s.config.maxRetries - 1 + 1 = s.config.maxRetries := by omega
    rw [handleStreamError_eq, hcnt]
    simp only [Option.getD_some]
    rw [hsucc, if_pos (Nat.le_refl _)]
    have hfull := stopStream_full_release
      { s with
          connectionAttempts := mapSet s.connectionAttempts id s.config.maxRetries
          events := s.events ++ [Event.streamError id s.config.maxRetries]
            ++ [Event.streamFailed id] } id hhas
    exact ⟨hfull.2.2.2.2.1, hfull.1, hfull.2.1, hfull.2.2.1, hfull.2.2.2.2.2⟩

/-- C2 witness: the reachable-invariant part at the one-stream run, and the
terminal-moment part at the concrete state whose counter stands at
`maxRetries - 1 = 4`. -/
theorem claim_C2_bounded_retries_witness :
    (0 : Nat) ≤ defaultConfig.maxRetries ∧
    mapGet (handleStreamError nearLimitState (0, Quality.low)
      (mkCam 0)).activeStreams (0, Quality.low) = none ∧
    mapGet (handleStreamError nearLimitState (0, Quality.low)
      (mkCam 0)).connectionAttempts (0, Quality.low) = none :=
  ⟨claim_C2_bounded_retries.1 C8ops (0, Quality.low) 0 (by decide) (by decide),
   (claim_C2_bounded_retries.2 nearLimitState (0, Quality.low) (mkCam 0)
      (by decide) (by decide) (by decide)).2.1,
   (claim_C2_bounded_retries.2 nearLimitState (0, Quality.low) (mkCam 0)
      (by decide) (by decide) (by decide)).2.2.1⟩

/-- C6 counterexample: toggling audio onto stream 1 and then onto stream 2
leaves stream 1 without audio and stream 2 with it, but the complete event
log is `[audioStarted 1, audioStarted 2]`: no `audioStopped`/release event for
stream 1 is ever emitted, so no release event precedes the acquisition —
contradicting the claim's required event ordering. -/
theorem claim_C6_counterexample :
    hasAudio (run C6ops) (1, Quality.low) = false ∧
    hasAudio (run C6ops) (2, Quality.low) = true ∧
    (run C6ops).events
      = [Event.audioStarted (1, Quality.low), Event.audioStarted (2, Quality.low)] := by
  refine ⟨by decide, by decide, by decide⟩

/-- C6 amended: toggling audio onto stream B while stream A owns the channel
leaves A without audio and B with it, and appends exactly one event —
`audioStarted(B)` — to the log: the release of A is silent (no
`audioStopped(A)` is emitted during the hand-off). -/
theorem claim_C6_silent_handoff (s : ManagerState) (a : StreamId) (cidB : Nat)
    (qB : Quality) (sdB : StreamData) (hne : a ≠ (cidB, qB))
    (hB : mapGet s.activeStreams (cidB, qB) = some sdB)
    (hid : sdB.camera.id = cidB) (hq : sdB.quality = qB)
    (hcur : s.currentAudioStream = some a) :
    ∃ s' : ManagerState, toggleAudio s cidB qB false = Except.ok (s', true) ∧
      hasAudio s' a = false ∧ hasAudio s' (cidB, qB) = true ∧
      s'.events = s.events ++ [Event.audioStarted (cidB, qB)] := by
  have hcur' : ¬s.currentAudioStream = some (cidB, qB) := by
    rw [hcur]
    intro hh
    exact hne (Option.some.inj hh)
  refine ⟨_, toggleAudio_acquire s cidB qB sdB hB hcur', ?_, ?_, ?_⟩
  · show mapHas (startAudioStream s sdB).1.audioStreams a = false
    rw [startAudioStream_audio, hid, hq, hcur]
    simp only [ne_eq, hne, not_false_eq_true, if_true]
    rw [mapHas_set_ne _ _ _ _ hne]
    exact mapHas_del_self _ _
  · show mapHas (startAudioStream s sdB).1.audioStreams (cidB, qB) = true
    rw [startAudioStream_audio, hid, hq]
    simp [mapHas, mapGet_set_self]
  · show (startAudioStream s sdB).1.events ++ [Event.audioStarted (cidB, qB)]
      = s.events ++ [Event.audioStarted (cidB, qB)]
    rw [startAudioStream_events]

/-- C6 witness: the amended statement at the concrete run where stream 1
holds the audio channel and stream 2 acquires it. -/
theorem claim_C6_silent_handoff_witness :
    ∃ s' : ManagerState,
      toggleAudio (run C3ops) 2 Quality.low false = Except.ok (s', true) ∧
      hasAudio s' (1, Quality.low) = false ∧
      hasAudio s' (2, Quality.low) = true ∧
      s'.events = (run C3ops).events ++ [Event.audioStarted (2, Quality.low)] :=
  claim_C6_silent_handoff (run C3ops) (1, Quality.low) 2 Quality.low
    secondStreamData (by decide) (by decide) (by decide) (by decide) (by decide)

/-- C8 counterexample: a client connecting to a stream whose record is still
in the `connecting` state is accepted and counted (`clientsConnected`
becomes 1) and the proxy serves the request — contradicting the claim that
clients are counted only when the state is `Streaming`. -/
theorem claim_C8_counterexample :
    (mapGet (run C8ops).activeStreams (0, Quality.low)).map (fun d => d.status)
      = some StreamStatus.connecting ∧
    (mapGet (clientConnect (run C8ops) (0, Quality.low)).activeStreams
        (0, Quality.low)).map (fun d => d.clientsConnected) = some 1 ∧
    handleProxyRequest (run C8ops) (0, Quality.low) = ProxyResponse.served := by
  refine ⟨by decide, by decide, by decide⟩

/-- C8 amended: the relay accepts and counts a client exactly when the
record exists, regardless of its state; when no record exists it answers
`Stream not found` and leaves everything unchanged; and for every order of
connect/disconnect events on a live record the counter equals its initial
value plus the connect/disconnect balance. -/
theorem claim_C8_count_on_record (s : ManagerState) (id : StreamId) :
    (∀ sd : StreamData, mapGet s.activeStreams id = some sd →
      handleProxyRequest s id = ProxyResponse.served ∧
      (mapGet (clientConnect s id).activeStreams id).map
          (fun d => d.clientsConnected) = some (sd.clientsConnected + 1) ∧
      (mapGet (clientDisconnect s id).activeStreams id).map
          (fun d => d.clientsConnected) = some (sd.clientsConnected - 1) ∧
      (∀ evs : List Bool,
        (mapGet (applyClientEvents s id evs).activeStreams id).map
            (fun d => d.clientsConnected)
          = some (sd.clientsConnected + clientBalance evs))) ∧
    (mapGet s.activeStreams id = none →
      handleProxyRequest s id = ProxyResponse.notFound ∧
      clientConnect s id = s ∧ clientDisconnect s id = s) := by
  constructor
  · intro sd h
    refine ⟨by simp [handleProxyRequest, h], ?_, ?_,
      fun evs => applyClientEvents_counter id evs s sd h⟩
    · simp [clientConnect, h, mapGet_set_self]
    · simp [clientDisconnect, h, mapGet_set_self]
  · intro h
    exact ⟨by simp [handleProxyRequest, h], by simp [clientConnect, h],
      by simp [clientDisconnect, h]⟩

/-- C8 witness: on the live record of camera 0, the request is served and
two connects followed by one disconnect leave the counter at the
connect/disconnect balance. -/
theorem claim_C8_count_on_record_witness :
    handleProxyRequest (run C8ops) (0, Quality.low) = ProxyResponse.served ∧
    (mapGet (applyClientEvents (run C8ops) (0, Quality.low)
        [true, true, false]).activeStreams (0, Quality.low)).map
        (fun d => d.clientsConnected)
      = some ((mkData 0).clientsConnected + clientBalance [true, true, false]) := by
  have h := (claim_C8_count_on_record (run C8ops) (0, Quality.low)).1 (mkData 0)
    (by decide)
  exact ⟨h.1, h.2.2.2 [true, true, false]⟩

end ClaimsC

end Surveillance
